import Mathlib

/-!
Verification of the scenario-to-estimate computation engine of the
parametric budget simulator (src/app.py, function compute_simulation).

The engine is embedded shallowly: Python floats are modelled as exact
rationals, and the Python builtin round (round-half-to-even, to a given
number of decimal places) is modelled by roundHalfEven / roundTo.
Enum-valued scenario fields are modelled as strings, exactly as the
Python code stores them; the dictionary lookups of the source become
Option-valued table functions, so that a missing (project_type,
structural_system) key, which raises in Python, becomes none.
-/

/-- Round a rational to the nearest integer, ties to even (the rounding
mode of the Python builtin round). -/
def roundHalfEven (x : ℚ) : ℤ :=
  let f := ⌊x⌋
  if x < f + 1/2 then f
  else if (f : ℚ) + 1/2 < x then f + 1
  else if f % 2 = 0 then f else f + 1

/-- Python round(x, n): round to n decimal places, ties to even. -/
def roundTo (x : ℚ) (n : ℕ) : ℚ :=
  (roundHalfEven (x * 10 ^ n) : ℚ) / 10 ^ n

/-- A scenario as captured by capture_scenario in src/app.py: the enum
fields are the strings used by the UI, the checklist is an ordered
mapping from item name to its boolean, and the three option flags are
the opts sub-dictionary. -/
structure Scenario where
  project_type : String
  area_m2 : ℤ
  structural_system : String
  envelope : String
  quality : String
  region : String
  skylights : Bool
  mezzanine : Bool
  hvac : Bool
  checklist : List (String × Bool)
  deriving DecidableEq

/-- The base cost table of compute_simulation, keyed by
(project_type, structural_system); a missing key yields none. -/
def base_table (pt ss : String) : Option ℚ :=
  if pt = "Warehouse" ∧ ss = "Steel" then some 420
  else if pt = "Warehouse" ∧ ss = "Concrete" then some 450
  else if pt = "Office" ∧ ss = "Steel" then some 520
  else if pt = "Office" ∧ ss = "Concrete" then some 560
  else if pt = "Retail" ∧ ss = "Steel" then some 480
  else if pt = "Retail" ∧ ss = "Concrete" then some 510
  else none

/-- Region multiplier lookup of compute_simulation. -/
def region_mult_table (r : String) : Option ℚ :=
  if r = "North" then some 0.95
  else if r = "Central" then some 1.00
  else if r = "South" then some 1.05
  else none

/-- Envelope multiplier lookup of compute_simulation. -/
def envelope_mult_table (e : String) : Option ℚ :=
  if e = "Standard" then some 1.00
  else if e = "Insulated" then some 1.08
  else none

/-- Quality multiplier lookup of compute_simulation. -/
def quality_mult_table (q : String) : Option ℚ :=
  if q = "Basic" then some 0.95
  else if q = "Standard" then some 1.00
  else if q = "Premium" then some 1.12
  else none

/-- Sum of the enabled option adders: skylights +8, mezzanine +60,
hvac +45. -/
def adders_of (scn : Scenario) : ℤ :=
  (if scn.skylights then 8 else 0) +
  (if scn.mezzanine then 60 else 0) +
  (if scn.hvac then 45 else 0)

/-- Number of checklist entries whose value is false. -/
def uncheckedCount (cl : List (String × Bool)) : ℕ :=
  (cl.filter fun p => !p.2).length

/-- contingency_pct = min(unchecked * 0.005, 0.05). -/
def contingency_pct_of (cl : List (String × Bool)) : ℚ :=
  min ((uncheckedCount cl : ℚ) * 0.005) 0.05

/-- The residual contingency bucket: total minus the four proportional
buckets, before rounding. -/
def contingency_val_of (total : ℚ) : ℚ :=
  total - (total * 0.35 + total * 0.18 + total * 0.20 + total * 0.22)

/-- unit_cost_total = total / area if area else 0 (the guard of line 276
of src/app.py). -/
def unit_cost_total_of (total : ℚ) (area : ℤ) : ℚ :=
  if area ≠ 0 then total / (area : ℚ) else 0

/-- The result record of compute_simulation. -/
structure Estimate where
  unit_cost : ℚ
  total_cost : ℚ
  contingency_pct : ℚ
  steel_t : ℚ
  concrete_m3 : ℚ
  co2_tons : ℚ
  lead_time_wks : ℤ
  bucket_structure : ℚ
  bucket_envelope : ℚ
  bucket_mep : ℚ
  bucket_finishes : ℚ
  bucket_contingency : ℚ
  subtotal_no_cont : ℚ
  adders_per_m2 : ℤ
  deriving DecidableEq

/-- The body of compute_simulation after the four table lookups have
succeeded, line by line.  The structural-system branch of the source
assigns four variables at once; here each of the four gets its own
conditional with the same condition, which computes the same values. -/
def computeBody (base region_mult envelope_mult quality_mult : ℚ)
    (scn : Scenario) : Estimate :=
  let unit_cost_base := base * region_mult * envelope_mult * quality_mult
  let adders := adders_of scn
  let contingency_pct := contingency_pct_of scn.checklist
  let area := scn.area_m2
  let subtotal := (area : ℚ) * (unit_cost_base + (adders : ℚ))
  let total := subtotal * (1 + contingency_pct)
  let bStructure := total * 0.35
  let bEnvelope := total * 0.18
  let bMep := total * 0.20
  let bFinishes := total * 0.22
  let contingency_val := contingency_val_of total
  let steel_t := if scn.structural_system = "Steel"
    then roundTo ((area : ℚ) * 0.02) 1 else roundTo ((area : ℚ) * 0.008) 1
  let conc_m3 := if scn.structural_system = "Steel"
    then roundTo ((area : ℚ) * 0.05) 1 else roundTo ((area : ℚ) * 0.12) 1
  let co2 := if scn.structural_system = "Steel"
    then roundTo (steel_t * 1.8 + conc_m3 * 0.1) 1
    else roundTo (steel_t * 1.4 + conc_m3 * 0.22) 1
  let lead_weeks0 : ℤ := if scn.structural_system = "Steel"
    then (if scn.mezzanine then 14 else 12)
    else (if scn.mezzanine then 16 else 14)
  let lead_weeks1 := lead_weeks0 + (if scn.hvac then 1 else 0)
  let lead_weeks := lead_weeks1 + (if scn.region = "South" then 1 else 0)
  let unit_cost_total := unit_cost_total_of total area
  { unit_cost := roundTo unit_cost_total 2
    total_cost := roundTo total 0
    contingency_pct := roundTo (contingency_pct * 100) 1
    steel_t := steel_t
    concrete_m3 := conc_m3
    co2_tons := co2
    lead_time_wks := lead_weeks
    bucket_structure := roundTo bStructure 0
    bucket_envelope := roundTo bEnvelope 0
    bucket_mep := roundTo bMep 0
    bucket_finishes := roundTo bFinishes 0
    bucket_contingency := roundTo contingency_val 0
    subtotal_no_cont := roundTo subtotal 0
    adders_per_m2 := adders }

/-- compute_simulation of src/app.py: the four dictionary lookups (a
missing key yields none) followed by the arithmetic body. -/
def compute_simulation (scn : Scenario) : Option Estimate :=
  (base_table scn.project_type scn.structural_system).bind fun base =>
  (region_mult_table scn.region).bind fun region_mult =>
  (envelope_mult_table scn.envelope).bind fun envelope_mult =>
  (quality_mult_table scn.quality).bind fun quality_mult =>
  some (computeBody base region_mult envelope_mult quality_mult scn)

/-- Membership of a string in the declared projectType enum domain. -/
abbrev validProjectType (s : String) : Prop :=
  s = "Warehouse" ∨ s = "Office" ∨ s = "Retail"

/-- Membership of a string in the declared structuralSystem enum domain. -/
abbrev validStructuralSystem (s : String) : Prop :=
  s = "Steel" ∨ s = "Concrete"

/-- Membership of a string in the declared envelope enum domain. -/
abbrev validEnvelope (s : String) : Prop :=
  s = "Standard" ∨ s = "Insulated"

/-- Membership of a string in the declared quality enum domain. -/
abbrev validQuality (s : String) : Prop :=
  s = "Basic" ∨ s = "Standard" ∨ s = "Premium"

/-- Membership of a string in the declared region enum domain. -/
abbrev validRegion (s : String) : Prop :=
  s = "North" ∨ s = "Central" ∨ s = "South"

/-- A valid Scenario: every enum field in its declared domain and the
builder-enforced area range 500 to 50000. -/
abbrev ValidScenario (scn : Scenario) : Prop :=
  validProjectType scn.project_type ∧
  validStructuralSystem scn.structural_system ∧
  validEnvelope scn.envelope ∧
  validQuality scn.quality ∧
  validRegion scn.region ∧
  500 ≤ scn.area_m2 ∧ scn.area_m2 ≤ 50000

/-- The fixed 7-item checklist of the application, all items confirmed. -/
def stdChecklistAllTrue : List (String × Bool) :=
  [("Soil report available", true),
   ("As-built utilities verified", true),
   ("Permitting path confirmed", true),
   ("Vendor pre-qualification complete", true),
   ("BIM execution plan approved", true),
   ("LEED considerations", true),
   ("Early procurement planned", true)]

/-- If all four lookups succeed, compute_simulation is the body applied
to the looked-up values. -/
lemma compute_simulation_eq (scn : Scenario) (b rm em qm : ℚ)
    (hb : base_table scn.project_type scn.structural_system = some b)
    (hr : region_mult_table scn.region = some rm)
    (he : envelope_mult_table scn.envelope = some em)
    (hq : quality_mult_table scn.quality = some qm) :
    compute_simulation scn = some (computeBody b rm em qm scn) := by
  simp [compute_simulation, hb, hr, he, hq]

/-- A successful compute_simulation factors through computeBody. -/
lemma compute_simulation_some_elim {scn : Scenario} {est : Estimate}
    (h : compute_simulation scn = some est) :
    ∃ b rm em qm : ℚ,
      base_table scn.project_type scn.structural_system = some b ∧
      region_mult_table scn.region = some rm ∧
      envelope_mult_table scn.envelope = some em ∧
      quality_mult_table scn.quality = some qm ∧
      est = computeBody b rm em qm scn := by
  unfold compute_simulation at h
  rcases hb : base_table scn.project_type scn.structural_system with _ | b <;>
    rw [hb] at h
  · simp at h
  rcases hr : region_mult_table scn.region with _ | rm <;> rw [hr] at h
  · simp at h
  rcases he : envelope_mult_table scn.envelope with _ | em <;> rw [he] at h
  · simp at h
  rcases hq : quality_mult_table scn.quality with _ | qm <;> rw [hq] at h
  · simp at h
  simp at h
  exact ⟨b, rm, em, qm, rfl, rfl, rfl, rfl, h.symm⟩

/-- The base table has an entry exactly on the declared 3 by 2 domain. -/
lemma base_table_isSome_iff (pt ss : String) :
    (base_table pt ss).isSome ↔ validProjectType pt ∧ validStructuralSystem ss := by
  unfold base_table
  split_ifs with h1 h2 h3 h4 h5 h6 <;>
    simp only [Option.isSome_some, Option.isSome_none, validProjectType,
      validStructuralSystem, true_iff, false_iff] <;> tauto

/-- A valid project/structure pair has a base cost between 420 and 560. -/
lemma base_table_valid {pt ss : String}
    (hp : validProjectType pt) (hs : validStructuralSystem ss) :
    ∃ b : ℚ, base_table pt ss = some b ∧ 420 ≤ b ∧ b ≤ 560 := by
  rcases hp with h | h | h <;> rcases hs with h2 | h2 <;> subst h <;> subst h2 <;>
    exact ⟨_, rfl, by norm_num⟩

/-- A valid region has a multiplier between 0.95 and 1.05. -/
lemma region_mult_table_valid {r : String} (h : validRegion r) :
    ∃ m : ℚ, region_mult_table r = some m ∧ 19/20 ≤ m ∧ m ≤ 21/20 := by
  rcases h with h | h | h <;> subst h <;> exact ⟨_, rfl, by norm_num⟩

/-- A valid envelope has a multiplier between 1 and 1.08. -/
lemma envelope_mult_table_valid {e : String} (h : validEnvelope e) :
    ∃ m : ℚ, envelope_mult_table e = some m ∧ 1 ≤ m ∧ m ≤ 27/25 := by
  rcases h with h | h <;> subst h <;> exact ⟨_, rfl, by norm_num⟩

/-- A valid quality has a multiplier between 0.95 and 1.12. -/
lemma quality_mult_table_valid {q : String} (h : validQuality q) :
    ∃ m : ℚ, quality_mult_table q = some m ∧ 19/20 ≤ m ∧ m ≤ 28/25 := by
  rcases h with h | h | h <;> subst h <;> exact ⟨_, rfl, by norm_num⟩

/-- Lower bound for round-half-even. -/
lemma le_roundHalfEven (x : ℚ) : x - 1/2 ≤ (roundHalfEven x : ℚ) := by
  have hfl := Int.floor_le x
  have hlt := Int.lt_floor_add_one x
  simp only [roundHalfEven]
  split_ifs <;> push_cast <;> linarith

/-- Upper bound for round-half-even. -/
lemma roundHalfEven_le (x : ℚ) : (roundHalfEven x : ℚ) ≤ x + 1/2 := by
  have hfl := Int.floor_le x
  have hlt := Int.lt_floor_add_one x
  simp only [roundHalfEven]
  split_ifs with h1 h2 h3 <;> push_cast <;> linarith

/-- Rounding to zero decimal places is plain round-half-even. -/
lemma roundTo_zero (x : ℚ) : roundTo x 0 = (roundHalfEven x : ℚ) := by
  simp [roundTo]

/-- Round-half-even is strictly monotone across a gap of two. -/
lemma roundHalfEven_lt_of_add_two_le {x y : ℚ} (h : x + 2 ≤ y) :
    roundHalfEven x < roundHalfEven y := by
  have h1 := roundHalfEven_le x
  have h2 := le_roundHalfEven y
  have : (roundHalfEven x : ℚ) < (roundHalfEven y : ℚ) := by linarith
  exact_mod_cast this

/-- Values with at most n decimal digits are fixed by roundTo. -/
lemma roundTo_eq_self {x : ℚ} {n : ℕ} (k : ℤ) (h : x * 10 ^ n = (k : ℚ)) :
    roundTo x n = x := by
  have hr : roundHalfEven (x * 10 ^ n) = k := by
    rw [h]
    have hk : ⌊(k : ℚ)⌋ = k := Int.floor_intCast k
    simp only [roundHalfEven, hk]
    norm_num
  rw [roundTo, hr, div_eq_iff (by positivity : ((10:ℚ) ^ n) ≠ 0)]
  exact h.symm

/-- The pre-rounding total of the body, as a standalone expression. -/
def totalOf (b rm em qm : ℚ) (scn : Scenario) : ℚ :=
  (scn.area_m2 : ℚ) * (b * rm * em * qm + (adders_of scn : ℚ)) *
    (1 + contingency_pct_of scn.checklist)

lemma computeBody_total_cost (b rm em qm : ℚ) (scn : Scenario) :
    (computeBody b rm em qm scn).total_cost = roundTo (totalOf b rm em qm scn) 0 := rfl

lemma computeBody_unit_cost (b rm em qm : ℚ) (scn : Scenario) :
    (computeBody b rm em qm scn).unit_cost =
      roundTo (unit_cost_total_of (totalOf b rm em qm scn) scn.area_m2) 2 := rfl

lemma computeBody_contingency_pct (b rm em qm : ℚ) (scn : Scenario) :
    (computeBody b rm em qm scn).contingency_pct =
      roundTo (contingency_pct_of scn.checklist * 100) 1 := rfl

lemma computeBody_buckets (b rm em qm : ℚ) (scn : Scenario) :
    (computeBody b rm em qm scn).bucket_structure =
        roundTo (totalOf b rm em qm scn * 0.35) 0 ∧
      (computeBody b rm em qm scn).bucket_envelope =
        roundTo (totalOf b rm em qm scn * 0.18) 0 ∧
      (computeBody b rm em qm scn).bucket_mep =
        roundTo (totalOf b rm em qm scn * 0.20) 0 ∧
      (computeBody b rm em qm scn).bucket_finishes =
        roundTo (totalOf b rm em qm scn * 0.22) 0 ∧
      (computeBody b rm em qm scn).bucket_contingency =
        roundTo (contingency_val_of (totalOf b rm em qm scn)) 0 :=
  ⟨rfl, rfl, rfl, rfl, rfl⟩

lemma computeBody_steel_t (b rm em qm : ℚ) (scn : Scenario) :
    (computeBody b rm em qm scn).steel_t =
      if scn.structural_system = "Steel" then roundTo ((scn.area_m2 : ℚ) * 0.02) 1
      else roundTo ((scn.area_m2 : ℚ) * 0.008) 1 := rfl

lemma computeBody_concrete_m3 (b rm em qm : ℚ) (scn : Scenario) :
    (computeBody b rm em qm scn).concrete_m3 =
      if scn.structural_system = "Steel" then roundTo ((scn.area_m2 : ℚ) * 0.05) 1
      else roundTo ((scn.area_m2 : ℚ) * 0.12) 1 := rfl

lemma computeBody_co2_tons (b rm em qm : ℚ) (scn : Scenario) :
    (computeBody b rm em qm scn).co2_tons =
      if scn.structural_system = "Steel" then
        roundTo ((computeBody b rm em qm scn).steel_t * 1.8 +
          (computeBody b rm em qm scn).concrete_m3 * 0.1) 1
      else
        roundTo ((computeBody b rm em qm scn).steel_t * 1.4 +
          (computeBody b rm em qm scn).concrete_m3 * 0.22) 1 := rfl

lemma computeBody_lead_time (b rm em qm : ℚ) (scn : Scenario) :
    (computeBody b rm em qm scn).lead_time_wks =
      (if scn.structural_system = "Steel" then (if scn.mezzanine then 14 else 12)
        else (if scn.mezzanine then 16 else 14)) +
      (if scn.hvac then 1 else 0) + (if scn.region = "South" then 1 else 0) := rfl

/-- The option adders are nonnegative. -/
lemma adders_of_nonneg (scn : Scenario) : 0 ≤ adders_of scn := by
  unfold adders_of
  split_ifs <;> norm_num

/-- The contingency percentage is nonnegative. -/
lemma contingency_pct_of_nonneg (cl : List (String × Bool)) :
    0 ≤ contingency_pct_of cl := by
  unfold contingency_pct_of
  apply le_min <;> positivity

/-- The fixed 7-item checklist with every item unconfirmed. -/
def stdChecklistAllFalse : List (String × Bool) :=
  stdChecklistAllTrue.map fun p => (p.1, false)

/-- A valid scenario exhibiting the bucket rounding drift: Warehouse,
1001 square metres, Steel, Standard, Basic, North, no options, all
checklist items confirmed. -/
def scnBucketGap : Scenario :=
  { project_type := "Warehouse", area_m2 := 1001, structural_system := "Steel",
    envelope := "Standard", quality := "Basic", region := "North",
    skylights := false, mezzanine := false, hvac := false,
    checklist := stdChecklistAllTrue }

/-- C1 counterexample: for the valid scenario scnBucketGap the five
returned (whole-unit rounded) cost buckets sum to 379428 while the
returned totalCost is 379429, so the buckets do not sum exactly to
totalCost. -/
theorem C1_counterexample :
    ValidScenario scnBucketGap ∧
    ∃ est, compute_simulation scnBucketGap = some est ∧
      est.bucket_structure + est.bucket_envelope + est.bucket_mep +
        est.bucket_finishes + est.bucket_contingency ≠ est.total_cost := by
  refine ⟨by decide, computeBody 420 0.95 1.00 0.95 scnBucketGap,
    compute_simulation_eq _ 420 0.95 1.00 0.95 rfl rfl rfl rfl, ?_⟩
  unfold computeBody
  set_option maxRecDepth 8000 in
  norm_num [adders_of, contingency_pct_of, uncheckedCount, contingency_val_of,
    unit_cost_total_of, roundTo, roundHalfEven, stdChecklistAllTrue, scnBucketGap]

/-- Absolute rounding error of whole-unit rounding is at most one half. -/
lemma abs_roundTo_zero_sub_le (x : ℚ) : |roundTo x 0 - x| ≤ 1/2 := by
  rw [roundTo_zero, abs_le]
  constructor
  · linarith [le_roundHalfEven x]
  · linarith [roundHalfEven_le x]

/-- C1 (amended): before rounding, the four proportional buckets plus
the residual Contingency bucket sum exactly to the total; after each
bucket and the total are independently rounded to whole units (as the
code does), the returned bucket sum can differ from the returned
totalCost, but by at most 3 currency units. -/
theorem C1_amended :
    (∀ total : ℚ,
      total * 0.35 + total * 0.18 + total * 0.20 + total * 0.22 +
        contingency_val_of total = total) ∧
    (∀ (b rm em qm : ℚ) (scn : Scenario),
      |(computeBody b rm em qm scn).bucket_structure +
        (computeBody b rm em qm scn).bucket_envelope +
        (computeBody b rm em qm scn).bucket_mep +
        (computeBody b rm em qm scn).bucket_finishes +
        (computeBody b rm em qm scn).bucket_contingency -
        (computeBody b rm em qm scn).total_cost| ≤ 3) := by
  constructor
  · intro total
    unfold contingency_val_of
    ring
  · intro b rm em qm scn
    obtain ⟨hs, he, hm, hf, hc⟩ := computeBody_buckets b rm em qm scn
    rw [hs, he, hm, hf, hc, computeBody_total_cost]
    set T := totalOf b rm em qm scn with hT
    have e1 := abs_le.mp (abs_roundTo_zero_sub_le (T * 0.35))
    have e2 := abs_le.mp (abs_roundTo_zero_sub_le (T * 0.18))
    have e3 := abs_le.mp (abs_roundTo_zero_sub_le (T * 0.20))
    have e4 := abs_le.mp (abs_roundTo_zero_sub_le (T * 0.22))
    have e5 := abs_le.mp (abs_roundTo_zero_sub_le (contingency_val_of T))
    have e6 := abs_le.mp (abs_roundTo_zero_sub_le T)
    have hsum : T * 0.35 + T * 0.18 + T * 0.20 + T * 0.22 +
        contingency_val_of T = T := by
      unfold contingency_val_of
      ring
    rw [abs_le]
    constructor <;> linarith

/-- C7: the estimation function is a pure function of the scenario
value: two invocations on equal Scenario values produce equal results.
The embedding of compute_simulation is a total function of its argument
alone, with no state, I/O or time dependency. -/
theorem C7_deterministic (scn1 scn2 : Scenario) (h : scn1 = scn2) :
    compute_simulation scn1 = compute_simulation scn2 := by
  rw [h]

/-- Witness for C7 at a concrete scenario. -/
theorem C7_deterministic_witness :
    compute_simulation scnBucketGap = compute_simulation scnBucketGap :=
  C7_deterministic scnBucketGap scnBucketGap rfl

/-- C8: the unit-cost division is guarded: at area 0 the guard returns
0, and for any area at least 500 the guard is not taken and the result
is the division total / area. -/
theorem C8_division_guard :
    (∀ total : ℚ, unit_cost_total_of total 0 = 0) ∧
    (∀ (total : ℚ) (area : ℤ), 500 ≤ area →
      unit_cost_total_of total area = total / (area : ℚ)) := by
  constructor
  · intro t
    simp [unit_cost_total_of]
  · intro t a ha
    unfold unit_cost_total_of
    rw [if_pos (by omega : a ≠ 0)]

/-- Witness for C8 at concrete inputs. -/
theorem C8_division_guard_witness :
    unit_cost_total_of 7 0 = 0 ∧ unit_cost_total_of 7 500 = 7 / 500 :=
  ⟨C8_division_guard.1 7, C8_division_guard.2 7 500 (by norm_num)⟩

/-- C10: the estimate depends on the checklist only through the number
of false entries: replacing the checklist by any other checklist (any
keys, any size) with the same number of false entries leaves the
result of compute_simulation unchanged. -/
theorem C10_checklist_count_only (scn : Scenario)
    (cl1 cl2 : List (String × Bool))
    (hc : uncheckedCount cl1 = uncheckedCount cl2) :
    compute_simulation { scn with checklist := cl1 } =
      compute_simulation { scn with checklist := cl2 } := by
  have hcp : contingency_pct_of cl1 = contingency_pct_of cl2 := by
    unfold contingency_pct_of
    rw [hc]
  have hbody : ∀ b rm em qm : ℚ,
      computeBody b rm em qm { scn with checklist := cl1 } =
        computeBody b rm em qm { scn with checklist := cl2 } := by
    intro b rm em qm
    simp [computeBody, adders_of, hcp]
  simp [compute_simulation, hbody]

/-- Witness for C10: two checklists with different keys and sizes but
one false entry each give identical estimates. -/
theorem C10_checklist_count_only_witness :
    compute_simulation
        { scnBucketGap with checklist := [("Permitting path confirmed", false)] } =
      compute_simulation
        { scnBucketGap with
          checklist := [("Soil report available", false), ("LEED considerations", true)] } :=
  C10_checklist_count_only scnBucketGap _ _ (by decide)

/-- C2: with the region, envelope and quality fields in their declared
domains, compute_simulation succeeds exactly when the base-cost lookup
succeeds, and the base-cost table has an entry exactly for the 3 by 2
domain Warehouse/Office/Retail times Steel/Concrete; no other step can
fail. -/
theorem C2_error_domain (scn : Scenario)
    (hr : validRegion scn.region) (he : validEnvelope scn.envelope)
    (hq : validQuality scn.quality) :
    ((compute_simulation scn).isSome ↔
      (base_table scn.project_type scn.structural_system).isSome) ∧
    ((base_table scn.project_type scn.structural_system).isSome ↔
      validProjectType scn.project_type ∧ validStructuralSystem scn.structural_system) := by
  refine ⟨?_, base_table_isSome_iff _ _⟩
  obtain ⟨rm, hrm, -, -⟩ := region_mult_table_valid hr
  obtain ⟨em, hem, -, -⟩ := envelope_mult_table_valid he
  obtain ⟨qm, hqm, -, -⟩ := quality_mult_table_valid hq
  rcases hb : base_table scn.project_type scn.structural_system with _ | b
  · simp [compute_simulation, hb]
  · rw [compute_simulation_eq scn b rm em qm hb hrm hem hqm]
    simp

/-- Witness for C2 at a concrete scenario. -/
theorem C2_error_domain_witness :
    ((compute_simulation scnBucketGap).isSome ↔
      (base_table scnBucketGap.project_type scnBucketGap.structural_system).isSome) ∧
    ((base_table scnBucketGap.project_type scnBucketGap.structural_system).isSome ↔
      validProjectType scnBucketGap.project_type ∧
        validStructuralSystem scnBucketGap.structural_system) :=
  C2_error_domain scnBucketGap (Or.inl rfl) (Or.inl rfl) (Or.inl rfl)

/-- The 1-decimal rounding of the reported contingency percentage is
exact, because the percentage is always a multiple of one half. -/
lemma contingency_pct_roundTo (cl : List (String × Bool)) :
    roundTo (contingency_pct_of cl * 100) 1 = contingency_pct_of cl * 100 := by
  unfold contingency_pct_of
  rcases le_total ((uncheckedCount cl : ℚ) * 0.005) 0.05 with h | h
  · rw [min_eq_left h]
    refine roundTo_eq_self (5 * (uncheckedCount cl : ℤ)) ?_
    push_cast
    ring
  · rw [min_eq_right h]
    refine roundTo_eq_self 50 ?_
    norm_num

/-- C3: the reported contingency percentage is exactly
min(u * 0.005, 0.05) expressed in percent, is monotone in the number u
of unchecked items, and for a checklist of at most 7 items the cap
never binds, with maximum value 3.5 percent reached at u = 7. -/
theorem C3_contingency (scn : Scenario) (est : Estimate)
    (h : compute_simulation scn = some est) :
    est.contingency_pct = min ((uncheckedCount scn.checklist : ℚ) * 0.005) 0.05 * 100 ∧
    (∀ (scn2 : Scenario) (est2 : Estimate), compute_simulation scn2 = some est2 →
      uncheckedCount scn.checklist ≤ uncheckedCount scn2.checklist →
      est.contingency_pct ≤ est2.contingency_pct) ∧
    (uncheckedCount scn.checklist ≤ 7 →
      est.contingency_pct = (uncheckedCount scn.checklist : ℚ) * 0.005 * 100 ∧
      est.contingency_pct ≤ 3.5) ∧
    (uncheckedCount scn.checklist = 7 → est.contingency_pct = 3.5) := by
  obtain ⟨b, rm, em, qm, -, -, -, -, hest⟩ := compute_simulation_some_elim h
  have hval : est.contingency_pct = contingency_pct_of scn.checklist * 100 := by
    rw [hest, computeBody_contingency_pct, contingency_pct_roundTo]
  have hmono : ∀ (scn2 : Scenario) (est2 : Estimate),
      compute_simulation scn2 = some est2 →
      uncheckedCount scn.checklist ≤ uncheckedCount scn2.checklist →
      est.contingency_pct ≤ est2.contingency_pct := by
    intro scn2 est2 h2 hle
    obtain ⟨b2, rm2, em2, qm2, -, -, -, -, hest2⟩ := compute_simulation_some_elim h2
    have hval2 : est2.contingency_pct = contingency_pct_of scn2.checklist * 100 := by
      rw [hest2, computeBody_contingency_pct, contingency_pct_roundTo]
    rw [hval, hval2]
    have : contingency_pct_of scn.checklist ≤ contingency_pct_of scn2.checklist := by
      unfold contingency_pct_of
      refine min_le_min ?_ le_rfl
      have : (uncheckedCount scn.checklist : ℚ) ≤ (uncheckedCount scn2.checklist : ℚ) := by
        exact_mod_cast hle
      nlinarith
    linarith
  have hsmall : uncheckedCount scn.checklist ≤ 7 →
      est.contingency_pct = (uncheckedCount scn.checklist : ℚ) * 0.005 * 100 ∧
      est.contingency_pct ≤ 3.5 := by
    intro h7
    have hle : ((uncheckedCount scn.checklist : ℚ)) * 0.005 ≤ 0.05 := by
      have : (uncheckedCount scn.checklist : ℚ) ≤ 7 := by exact_mod_cast h7
      nlinarith
    have heq : est.contingency_pct = (uncheckedCount scn.checklist : ℚ) * 0.005 * 100 := by
      rw [hval]
      unfold contingency_pct_of
      rw [min_eq_left hle]
    refine ⟨heq, ?_⟩
    rw [heq]
    have : (uncheckedCount scn.checklist : ℚ) ≤ 7 := by exact_mod_cast h7
    nlinarith
  refine ⟨by rw [hval]; unfold contingency_pct_of; ring, hmono, hsmall, ?_⟩
  intro h7
  have := (hsmall (le_of_eq h7)).1
  rw [this, h7]
  norm_num

/-- A valid scenario with every checklist item unconfirmed. -/
def scnGaps : Scenario :=
  { scnBucketGap with checklist := stdChecklistAllFalse }

/-- Witness for C3: with all 7 items unchecked the reported contingency
is exactly 3.5 percent. -/
theorem C3_contingency_witness :
    (computeBody 420 0.95 1.00 0.95 scnGaps).contingency_pct = 3.5 :=
  (C3_contingency scnGaps (computeBody 420 0.95 1.00 0.95 scnGaps)
    (compute_simulation_eq _ 420 0.95 1.00 0.95 rfl rfl rfl rfl)).2.2.2 (by decide)

/-- The first concrete scenario check of the spec: Warehouse, 10000
square metres, Steel, Standard, Basic, North, options all false,
checklist all true. -/
def scnSpecCheck1 : Scenario :=
  { project_type := "Warehouse", area_m2 := 10000, structural_system := "Steel",
    envelope := "Standard", quality := "Basic", region := "North",
    skylights := false, mezzanine := false, hvac := false,
    checklist := stdChecklistAllTrue }

/-- C4 counterexample: for the spec's first concrete scenario the code
returns subtotal and total 3790500, not the claimed 3782100 (the spec
misevaluates 420 * 0.95 * 1.00 * 0.95, which is 379.05, as 378.21). -/
theorem C4_counterexample :
    ∃ est, compute_simulation scnSpecCheck1 = some est ∧
      est.subtotal_no_cont ≠ 3782100 ∧ est.total_cost ≠ 3782100 := by
  refine ⟨computeBody 420 0.95 1.00 0.95 scnSpecCheck1,
    compute_simulation_eq _ 420 0.95 1.00 0.95 rfl rfl rfl rfl, ?_, ?_⟩ <;>
    unfold computeBody <;>
    set_option maxRecDepth 8000 in
    norm_num [adders_of, contingency_pct_of, uncheckedCount, contingency_val_of,
      unit_cost_total_of, roundTo, roundHalfEven, stdChecklistAllTrue, scnSpecCheck1]

/-- C4 (amended): for the spec's first concrete scenario the estimate
has unit cost 379.05 (= 420 * 0.95 * 1.00 * 0.95), adders 0,
contingency 0, subtotal and total 3790500, steel 200.0 t, concrete
500.0 m3, CO2 410.0 t and lead time 12 weeks. -/
theorem C4_amended :
    ∃ est, compute_simulation scnSpecCheck1 = some est ∧
      est.adders_per_m2 = 0 ∧ est.contingency_pct = 0 ∧
      est.unit_cost = 379.05 ∧
      est.subtotal_no_cont = 3790500 ∧ est.total_cost = 3790500 ∧
      est.steel_t = 200 ∧ est.concrete_m3 = 500 ∧ est.co2_tons = 410 ∧
      est.lead_time_wks = 12 := by
  refine ⟨computeBody 420 0.95 1.00 0.95 scnSpecCheck1,
    compute_simulation_eq _ 420 0.95 1.00 0.95 rfl rfl rfl rfl, ?_⟩
  unfold computeBody
  set_option maxRecDepth 8000 in
  norm_num [adders_of, contingency_pct_of, uncheckedCount, contingency_val_of,
    unit_cost_total_of, roundTo, roundHalfEven, stdChecklistAllTrue, scnSpecCheck1]
  decide

/-- The second concrete scenario check of the spec: as scnSpecCheck1 but
Concrete, region South, mezzanine and hvac enabled. -/
def scnSpecCheck2 : Scenario :=
  { project_type := "Warehouse", area_m2 := 10000, structural_system := "Concrete",
    envelope := "Standard", quality := "Basic", region := "South",
    skylights := false, mezzanine := true, hvac := true,
    checklist := stdChecklistAllTrue }

/-- C5 counterexample: for the spec's second concrete scenario the
returned lead time is not 16 weeks: the Concrete branch with mezzanine
starts at 16, and hvac and South each add one, giving 18. -/
theorem C5_counterexample :
    ∃ est, compute_simulation scnSpecCheck2 = some est ∧
      est.lead_time_wks ≠ 16 := by
  refine ⟨computeBody 450 1.05 1.00 0.95 scnSpecCheck2,
    compute_simulation_eq _ 450 1.05 1.00 0.95 rfl rfl rfl rfl, ?_⟩
  rw [computeBody_lead_time]
  decide

/-- C5 (amended): for the spec's second concrete scenario the lead time
is 18 weeks (16 for Concrete with mezzanine, +1 hvac, +1 South), and
the region multiplier 1.05 and the hvac adder +45 (with the mezzanine
adder +60) are applied to the unit cost, giving total
10000 * (450 * 1.05 * 1.00 * 0.95 + 105) = 5538750. -/
theorem C5_amended :
    ∃ est, compute_simulation scnSpecCheck2 = some est ∧
      est.lead_time_wks = 18 ∧
      est.total_cost = roundTo ((10000 : ℚ) * (450 * 1.05 * 1.00 * 0.95 + (45 + 60)) * (1 + 0)) 0 ∧
      est.total_cost = 5538750 := by
  refine ⟨computeBody 450 1.05 1.00 0.95 scnSpecCheck2,
    compute_simulation_eq _ 450 1.05 1.00 0.95 rfl rfl rfl rfl, ?_, ?_, ?_⟩
  · rw [computeBody_lead_time]
    decide
  · rw [computeBody_total_cost]
    unfold totalOf
    norm_num [adders_of, contingency_pct_of, uncheckedCount, stdChecklistAllTrue,
      scnSpecCheck2]
  · rw [computeBody_total_cost]
    unfold totalOf
    set_option maxRecDepth 8000 in
    norm_num [adders_of, contingency_pct_of, uncheckedCount, stdChecklistAllTrue,
      scnSpecCheck2, roundTo, roundHalfEven]

/-- On the valid domain the pre-rounding total grows by at least 2 when
the area grows by at least 1. -/
lemma total_mono_aux (b rm em qm : ℚ) (ad : ℤ) (c : ℚ) (a1 a2 : ℤ)
    (hb : 420 ≤ b) (hrm : 19/20 ≤ rm) (hem : 1 ≤ em) (hqm : 19/20 ≤ qm)
    (had : 0 ≤ ad) (hc : 0 ≤ c) (h12 : a1 < a2) :
    (a1 : ℚ) * (b * rm * em * qm + (ad : ℚ)) * (1 + c) + 2 ≤
      (a2 : ℚ) * (b * rm * em * qm + (ad : ℚ)) * (1 + c) := by
  have hrm0 : (0:ℚ) < rm := by linarith
  have hbrm : (399:ℚ) ≤ b * rm := by nlinarith
  have hbrme : (399:ℚ) ≤ b * rm * em := by nlinarith
  have hucb : (2:ℚ) ≤ b * rm * em * qm := by nlinarith
  have hadq : (0:ℚ) ≤ (ad : ℚ) := by exact_mod_cast had
  have hY : (2:ℚ) ≤ b * rm * em * qm + (ad : ℚ) := by linarith
  have hYZ : (2:ℚ) ≤ (b * rm * em * qm + (ad : ℚ)) * (1 + c) := by nlinarith
  have ha : (a1 : ℚ) + 1 ≤ (a2 : ℚ) := by exact_mod_cast h12
  have hkey := mul_le_mul (by linarith : (1:ℚ) ≤ (a2 : ℚ) - (a1 : ℚ)) hYZ
    (by norm_num) (by linarith)
  nlinarith [hkey]

/-- Floor of the base-2 logarithm of a positive rational, computed from
the bit lengths of numerator and denominator with a one-step
correction. -/
def qlog2 (x : ℚ) : ℤ :=
  let k : ℤ := (Nat.log 2 x.num.natAbs : ℤ) - (Nat.log 2 x.den : ℤ)
  if (2:ℚ)^(k+1) ≤ x then k + 1 else if x < (2:ℚ)^k then k - 1 else k

lemma qlog2_bracket (x : ℚ) (hx : 0 < x) :
    (2:ℚ)^(qlog2 x) ≤ x ∧ x < (2:ℚ)^(qlog2 x + 1) := by
  have hnum : (0:ℤ) < x.num := Rat.num_pos.mpr hx
  have hn0 : x.num.natAbs ≠ 0 := by omega
  have hd0 : x.den ≠ 0 := x.den_nz
  set n := x.num.natAbs with hn
  set d := x.den with hd
  set a := Nat.log 2 n with ha
  set b := Nat.log 2 d with hb
  have hn1 : (2:ℕ)^a ≤ n := Nat.pow_log_le_self 2 hn0
  have hn2 : n < 2^(a+1) := Nat.lt_pow_succ_log_self (by norm_num) n
  have hd1 : (2:ℕ)^b ≤ d := Nat.pow_log_le_self 2 hd0
  have hd2 : d < 2^(b+1) := Nat.lt_pow_succ_log_self (by norm_num) d
  have hnatabs : ((n:ℤ)) = x.num := by
    rw [hn]
    exact Int.natAbs_of_nonneg (le_of_lt hnum)
  have hxeq : ((n:ℚ)) / ((d:ℚ)) = x := by
    have h1 : ((n:ℚ)) = ((x.num : ℚ)) := by
      exact_mod_cast congrArg (Int.cast : ℤ → ℚ) hnatabs
    rw [h1, hd]
    exact Rat.num_div_den x
  have hdpos : (0:ℚ) < (d:ℚ) := by
    have := x.pos
    exact_mod_cast this
  have hnpos : (0:ℚ) < (n:ℚ) := by
    have : 0 < n := Nat.pos_of_ne_zero hn0
    exact_mod_cast this
  have h2a : (2:ℚ)^((a:ℤ)) ≤ (n:ℚ) := by
    rw [zpow_natCast]
    exact_mod_cast hn1
  have h2a2 : (n:ℚ) < (2:ℚ)^((a:ℤ)+1) := by
    have : ((a:ℤ)+1) = ((a+1 : ℕ) : ℤ) := by push_cast; ring
    rw [this, zpow_natCast]
    exact_mod_cast hn2
  have h2b : (2:ℚ)^((b:ℤ)) ≤ (d:ℚ) := by
    rw [zpow_natCast]
    exact_mod_cast hd1
  have h2b2 : (d:ℚ) < (2:ℚ)^((b:ℤ)+1) := by
    have : ((b:ℤ)+1) = ((b+1 : ℕ) : ℤ) := by push_cast; ring
    rw [this, zpow_natCast]
    exact_mod_cast hd2
  have hzpos : ∀ m : ℤ, (0:ℚ) < (2:ℚ)^m := fun m => zpow_pos (by norm_num) m
  have low : (2:ℚ)^((a:ℤ) - (b:ℤ) - 1) < x := by
    have e1 : (2:ℚ)^((a:ℤ) - (b:ℤ) - 1) = (2:ℚ)^((a:ℤ)) / (2:ℚ)^((b:ℤ)+1) := by
      rw [← zpow_sub₀ (two_ne_zero)]
      ring_nf
    rw [e1, ← hxeq]
    calc (2:ℚ)^((a:ℤ)) / (2:ℚ)^((b:ℤ)+1)
        < (2:ℚ)^((a:ℤ)) / (d:ℚ) :=
          div_lt_div_of_pos_left (hzpos _) hdpos h2b2
      _ ≤ ((n:ℚ)) / ((d:ℚ)) := (div_le_div_iff_of_pos_right hdpos).mpr h2a
  have high : x < (2:ℚ)^((a:ℤ) - (b:ℤ) + 1) := by
    have e2 : (2:ℚ)^((a:ℤ) - (b:ℤ) + 1) = (2:ℚ)^((a:ℤ)+1) / (2:ℚ)^((b:ℤ)) := by
      rw [← zpow_sub₀ (two_ne_zero)]
      ring_nf
    rw [e2, ← hxeq]
    calc ((n:ℚ)) / ((d:ℚ))
        ≤ ((n:ℚ)) / (2:ℚ)^((b:ℤ)) :=
          div_le_div_of_nonneg_left (le_of_lt hnpos) (hzpos _) h2b
      _ < (2:ℚ)^((a:ℤ)+1) / (2:ℚ)^((b:ℤ)) :=
          (div_lt_div_iff_of_pos_right (hzpos _)).mpr h2a2
  simp only [qlog2]
  rw [← hn, ← hd, ← ha, ← hb]
  split_ifs with h1 h2
  · exact absurd h1 (not_le.mpr (by linarith [high]))
  · constructor
    · linarith [low]
    · have : (a:ℤ) - (b:ℤ) - 1 + 1 = (a:ℤ) - (b:ℤ) := by ring
      rw [this]
      exact h2
  · exact ⟨not_lt.mp h2, by linarith [high]⟩

/-- Round-to-nearest, ties-to-even, 53-bit-significand rounding of a
positive rational: exactly the IEEE-754 double rounding in the normal
range, which covers every value arising in the unit-cost pipeline of
compute_simulation for valid scenarios.  Nonpositive inputs (which do
not occur there) map to 0. -/
def fl (x : ℚ) : ℚ :=
  if x ≤ 0 then 0
  else
    (roundHalfEven (x / (2:ℚ)^(qlog2 x - 52)) : ℚ) * (2:ℚ)^(qlog2 x - 52)

lemma fl_eq_of {x : ℚ} (e m : ℤ)
    (h1 : (2:ℚ)^(e+52) ≤ x) (h2 : x < (2:ℚ)^(e+53))
    (hm : roundHalfEven (x / (2:ℚ)^e) = m) :
    fl x = (m:ℚ) * (2:ℚ)^e := by
  have hx : 0 < x := lt_of_lt_of_le (zpow_pos (by norm_num) _) h1
  have hbr := qlog2_bracket x hx
  have he : qlog2 x = e + 52 := by
    by_contra hne
    rcases lt_or_gt_of_ne hne with hlt | hgt
    · have : (2:ℚ)^(qlog2 x + 1) ≤ (2:ℚ)^(e+52) :=
        zpow_le_zpow_right₀ (by norm_num) (by omega)
      linarith [hbr.2]
    · have : (2:ℚ)^(e+53) ≤ (2:ℚ)^(qlog2 x) :=
        zpow_le_zpow_right₀ (by norm_num) (by omega)
      linarith [hbr.1]
  unfold fl
  rw [if_neg (not_le.mpr hx), he, show e + 52 - 52 = e by ring, hm]

/-- Float multiplication: exact product, then double rounding. -/
def fmul (x y : ℚ) : ℚ := fl (x * y)

/-- Float addition: exact sum, then double rounding. -/
def fadd (x y : ℚ) : ℚ := fl (x + y)

/-- Float division: exact quotient, then double rounding. -/
def fdiv (x y : ℚ) : ℚ := fl (x / y)

/-- The unit-cost path of compute_simulation (lines 233 to 252, 276 and
279 of src/app.py) under IEEE double semantics: every arithmetic
operation rounds its exact result to the nearest double (ties to even),
decimal literals denote the doubles nearest to them, integers convert
exactly, and Python round(x, 2) is the correctly-rounded 2-decimal
rounding of the exact binary value followed by conversion to the
nearest double. -/
def compute_unit_cost_fl (scn : Scenario) : Option ℚ :=
  (base_table scn.project_type scn.structural_system).bind fun base =>
  (region_mult_table scn.region).bind fun region_mult =>
  (envelope_mult_table scn.envelope).bind fun envelope_mult =>
  (quality_mult_table scn.quality).bind fun quality_mult =>
  let unit_cost_base :=
    fmul (fmul (fmul base (fl region_mult)) (fl envelope_mult)) (fl quality_mult)
  let adders := adders_of scn
  let contingency_pct :=
    min (fmul (uncheckedCount scn.checklist : ℚ) (fl 0.005)) (fl 0.05)
  let area := scn.area_m2
  let subtotal := fmul (area : ℚ) (fadd unit_cost_base (adders : ℚ))
  let total := fmul subtotal (fadd 1 contingency_pct)
  let unit_cost_total := if area ≠ 0 then fdiv total (area : ℚ) else 0
  some (fl (roundTo unit_cost_total 2))

/-- The fixed 7-item checklist with a single unconfirmed item. -/
def checklistOneGap : List (String × Bool) :=
  [("Soil report available", true),
   ("As-built utilities verified", true),
   ("Permitting path confirmed", false),
   ("Vendor pre-qualification complete", true),
   ("BIM execution plan approved", true),
   ("LEED considerations", true),
   ("Early procurement planned", true)]

/-- A valid scenario hitting the half-cent unit-cost tie
399 * 1.005 = 400.995: Warehouse, Steel, North, Standard envelope,
Standard quality, no options, one unchecked checklist item, area 500. -/
def scnTie : Scenario :=
  { project_type := "Warehouse", area_m2 := 500, structural_system := "Steel",
    envelope := "Standard", quality := "Standard", region := "North",
    skylights := false, mezzanine := false, hvac := false,
    checklist := checklistOneGap }

set_option maxRecDepth 8000 in
lemma compute_unit_cost_fl_tie500 :
    compute_unit_cost_fl scnTie = some (1763572670487593 / 4398046511104) := by
  have h095 : fl (19 / 20) = 4278419646001971 / 4503599627370496 := by
    rw [fl_eq_of (-53) 8556839292003942 (by norm_num) (by norm_num)
      (by norm_num [roundHalfEven])]
    norm_num
  have h1 : fl (1 : ℚ) = 1 := by
    rw [fl_eq_of (-52) 4503599627370496 (by norm_num) (by norm_num)
      (by norm_num [roundHalfEven])]
    norm_num
  have hu1 : fl (449234062830206955 / 1125899906842624) = 399 := by
    rw [fl_eq_of (-44) 7019282231721984 (by norm_num) (by norm_num)
      (by norm_num [roundHalfEven])]
    norm_num
  have hu399 : fl (399 : ℚ) = 399 := by
    rw [fl_eq_of (-44) 7019282231721984 (by norm_num) (by norm_num)
      (by norm_num [roundHalfEven])]
    norm_num
  have h005 : fl (1 / 200) = 5764607523034235 / 1152921504606846976 := by
    rw [fl_eq_of (-60) 5764607523034235 (by norm_num) (by norm_num)
      (by norm_num [roundHalfEven])]
    norm_num
  have h05 : fl (1 / 20) = 3602879701896397 / 72057594037927936 := by
    rw [fl_eq_of (-57) 7205759403792794 (by norm_num) (by norm_num)
      (by norm_num [roundHalfEven])]
    norm_num
  have hcmul : fl (5764607523034235 / 1152921504606846976) =
      5764607523034235 / 1152921504606846976 := by
    rw [fl_eq_of (-60) 5764607523034235 (by norm_num) (by norm_num)
      (by norm_num [roundHalfEven])]
    norm_num
  have honec : fl (1158686112129881211 / 1152921504606846976) =
      1131529406376837 / 1125899906842624 := by
    rw [fl_eq_of (-52) 4526117625507348 (by norm_num) (by norm_num)
      (by norm_num [roundHalfEven])]
    norm_num
  have hs500 : fl (199500 : ℚ) = 199500 := by
    rw [fl_eq_of (-35) 6854767804416000 (by norm_num) (by norm_num)
      (by norm_num [roundHalfEven])]
    norm_num
  have ht500 : fl (56435029143044745375 / 281474976710656) =
      6889041643438079 / 34359738368 := by
    rw [fl_eq_of (-35) 6889041643438079 (by norm_num) (by norm_num)
      (by norm_num [roundHalfEven])]
    norm_num
  have hq500 : fl (6889041643438079 / 17179869184000) =
      7054378642880593 / 17592186044416 := by
    rw [fl_eq_of (-44) 7054378642880593 (by norm_num) (by norm_num)
      (by norm_num [roundHalfEven])]
    norm_num
  have hr500 : fl (40099 / 100) = 1763572670487593 / 4398046511104 := by
    rw [fl_eq_of (-44) 7054290681950372 (by norm_num) (by norm_num)
      (by norm_num [roundHalfEven])]
    norm_num
  have hbt : base_table "Warehouse" "Steel" = some 420 := rfl
  have hrt : region_mult_table "North" = some 0.95 := rfl
  have het : envelope_mult_table "Standard" = some 1.00 := rfl
  have hqt : quality_mult_table "Standard" = some 1.00 := rfl
  simp only [compute_unit_cost_fl]
  norm_num [hbt, hrt, het, hqt,
    adders_of, uncheckedCount, checklistOneGap, scnTie, min_def, Option.bind,
    fmul, fadd, fdiv, roundTo, roundHalfEven,
    h095, h1, hu1, hu399, h005, h05, hcmul, honec, hs500, ht500, hq500, hr500]

set_option maxRecDepth 8000 in
lemma compute_unit_cost_fl_tie10500 :
    compute_unit_cost_fl { scnTie with area_m2 := 10500 } = some 401 := by
  have h095 : fl (19 / 20) = 4278419646001971 / 4503599627370496 := by
    rw [fl_eq_of (-53) 8556839292003942 (by norm_num) (by norm_num)
      (by norm_num [roundHalfEven])]
    norm_num
  have h1 : fl (1 : ℚ) = 1 := by
    rw [fl_eq_of (-52) 4503599627370496 (by norm_num) (by norm_num)
      (by norm_num [roundHalfEven])]
    norm_num
  have hu1 : fl (449234062830206955 / 1125899906842624) = 399 := by
    rw [fl_eq_of (-44) 7019282231721984 (by norm_num) (by norm_num)
      (by norm_num [roundHalfEven])]
    norm_num
  have hu399 : fl (399 : ℚ) = 399 := by
    rw [fl_eq_of (-44) 7019282231721984 (by norm_num) (by norm_num)
      (by norm_num [roundHalfEven])]
    norm_num
  have h005 : fl (1 / 200) = 5764607523034235 / 1152921504606846976 := by
    rw [fl_eq_of (-60) 5764607523034235 (by norm_num) (by norm_num)
      (by norm_num [roundHalfEven])]
    norm_num
  have h05 : fl (1 / 20) = 3602879701896397 / 72057594037927936 := by
    rw [fl_eq_of (-57) 7205759403792794 (by norm_num) (by norm_num)
      (by norm_num [roundHalfEven])]
    norm_num
  have hcmul : fl (5764607523034235 / 1152921504606846976) =
      5764607523034235 / 1152921504606846976 := by
    rw [fl_eq_of (-60) 5764607523034235 (by norm_num) (by norm_num)
      (by norm_num [roundHalfEven])]
    norm_num
  have honec : fl (1158686112129881211 / 1152921504606846976) =
      1131529406376837 / 1125899906842624 := by
    rw [fl_eq_of (-52) 4526117625507348 (by norm_num) (by norm_num)
      (by norm_num [roundHalfEven])]
    norm_num
  have hs10500 : fl (4189500 : ℚ) = 4189500 := by
    rw [fl_eq_of (-31) 8996882743296000 (by norm_num) (by norm_num)
      (by norm_num [roundHalfEven])]
    norm_num
  have ht10500 : fl (1185135612003939652875 / 281474976710656) = 8420895 / 2 := by
    rw [fl_eq_of (-30) 4520933578506240 (by norm_num) (by norm_num)
      (by norm_num [roundHalfEven])]
    norm_num
  have hq10500 : fl (80199 / 200) = 3527189321440297 / 8796093022208 := by
    rw [fl_eq_of (-44) 7054378642880594 (by norm_num) (by norm_num)
      (by norm_num [roundHalfEven])]
    norm_num
  have hr10500 : fl (401 : ℚ) = 401 := by
    rw [fl_eq_of (-44) 7054466603810816 (by norm_num) (by norm_num)
      (by norm_num [roundHalfEven])]
    norm_num
  have hbt : base_table "Warehouse" "Steel" = some 420 := rfl
  have hrt : region_mult_table "North" = some 0.95 := rfl
  have het : envelope_mult_table "Standard" = some 1.00 := rfl
  have hqt : quality_mult_table "Standard" = some 1.00 := rfl
  simp only [compute_unit_cost_fl]
  norm_num [hbt, hrt, het, hqt,
    adders_of, uncheckedCount, checklistOneGap, scnTie, min_def, Option.bind,
    fmul, fadd, fdiv, roundTo, roundHalfEven,
    h095, h1, hu1, hu399, h005, h05, hcmul, honec, hs10500, ht10500, hq10500, hr10500]

/-- C6 counterexample: two valid scenarios that agree on every field
except areaM2 (500 versus 10500) for which the program returns
different unitCost values: under the IEEE double semantics of the
source, the unit value 399 * 1.005 = 400.995 is a half-cent tie and
round(total/area, 2) yields 400.99 at area 500 but 401.00 at area
10500, so the returned unitCost is not area-invariant. -/
theorem C6_counterexample :
    ValidScenario scnTie ∧
    ValidScenario { scnTie with area_m2 := 10500 } ∧
    scnTie.area_m2 < ({ scnTie with area_m2 := 10500 } : Scenario).area_m2 ∧
    compute_unit_cost_fl scnTie ≠
      compute_unit_cost_fl { scnTie with area_m2 := 10500 } := by
  refine ⟨by decide, by decide, by decide, ?_⟩
  rw [compute_unit_cost_fl_tie500, compute_unit_cost_fl_tie10500]
  simp only [ne_eq, Option.some.injEq]
  norm_num

/-- C6 (amended): for two valid scenarios that differ only in areaM2,
the larger area gives a strictly larger totalCost, and the unit cost
before the final 2-decimal rounding, total / area, is exactly
area-invariant (the returned unitCost can differ across areas only
through the final rounding of the float pipeline at a half-cent tie). -/
theorem C6_amended (scn : Scenario) (a1 a2 : ℤ) (est1 est2 : Estimate)
    (hv1 : ValidScenario { scn with area_m2 := a1 })
    (hv2 : ValidScenario { scn with area_m2 := a2 })
    (h12 : a1 < a2)
    (h1 : compute_simulation { scn with area_m2 := a1 } = some est1)
    (h2 : compute_simulation { scn with area_m2 := a2 } = some est2) :
    est1.total_cost < est2.total_cost ∧
    (∀ b rm em qm : ℚ,
      unit_cost_total_of (totalOf b rm em qm { scn with area_m2 := a1 }) a1 =
        unit_cost_total_of (totalOf b rm em qm { scn with area_m2 := a2 }) a2) := by
  obtain ⟨hpt, hss, hen, hq, hr, ha1l, -⟩ := hv1
  obtain ⟨-, -, -, -, -, ha2l, -⟩ := hv2
  have ha1 : (500 : ℤ) ≤ a1 := ha1l
  have ha2 : (500 : ℤ) ≤ a2 := ha2l
  obtain ⟨b, hb, hb420, -⟩ := base_table_valid hpt hss
  obtain ⟨rm, hrm, hrm1, -⟩ := region_mult_table_valid hr
  obtain ⟨em, hem, hem1, -⟩ := envelope_mult_table_valid hen
  obtain ⟨qm, hqm, hqm1, -⟩ := quality_mult_table_valid hq
  have he1 : est1 = computeBody b rm em qm { scn with area_m2 := a1 } := by
    have hcompute := compute_simulation_eq { scn with area_m2 := a1 } b rm em qm hb hrm hem hqm
    rw [h1] at hcompute
    exact Option.some.inj hcompute
  have he2 : est2 = computeBody b rm em qm { scn with area_m2 := a2 } := by
    have hcompute := compute_simulation_eq { scn with area_m2 := a2 } b rm em qm hb hrm hem hqm
    rw [h2] at hcompute
    exact Option.some.inj hcompute
  subst he1
  subst he2
  have hTot : ∀ (bx rmx emx qmx : ℚ) (a : ℤ),
      totalOf bx rmx emx qmx { scn with area_m2 := a } =
      (a : ℚ) * (bx * rmx * emx * qmx + ((adders_of scn : ℤ) : ℚ)) *
        (1 + contingency_pct_of scn.checklist) := fun bx rmx emx qmx a => rfl
  have hUnit : ∀ (bx rmx emx qmx : ℚ) (a : ℤ), 500 ≤ a →
      unit_cost_total_of (totalOf bx rmx emx qmx { scn with area_m2 := a }) a =
        (bx * rmx * emx * qmx + ((adders_of scn : ℤ) : ℚ)) *
          (1 + contingency_pct_of scn.checklist) := by
    intro bx rmx emx qmx a ha
    rw [hTot bx rmx emx qmx a]
    unfold unit_cost_total_of
    rw [if_pos (by omega : a ≠ 0), mul_assoc,
      mul_div_cancel_left₀ _ (by exact_mod_cast (by omega : a ≠ 0))]
  constructor
  · have hgap := total_mono_aux b rm em qm (adders_of scn)
      (contingency_pct_of scn.checklist) a1 a2 hb420 hrm1 hem1 hqm1
      (adders_of_nonneg scn) (contingency_pct_of_nonneg scn.checklist) h12
    rw [computeBody_total_cost, computeBody_total_cost, hTot b rm em qm a1,
      hTot b rm em qm a2, roundTo_zero, roundTo_zero]
    exact_mod_cast roundHalfEven_lt_of_add_two_le hgap
  · intro bx rmx emx qmx
    rw [hUnit bx rmx emx qmx a1 ha1, hUnit bx rmx emx qmx a2 ha2]

/-- Witness for C6 (amended): areas 500 and 1000 on the scnBucketGap
enum fields. -/
theorem C6_amended_witness :
    (computeBody 420 0.95 1.00 0.95 { scnBucketGap with area_m2 := 500 }).total_cost <
      (computeBody 420 0.95 1.00 0.95 { scnBucketGap with area_m2 := 1000 }).total_cost ∧
    (∀ b rm em qm : ℚ,
      unit_cost_total_of (totalOf b rm em qm { scnBucketGap with area_m2 := 500 }) 500 =
        unit_cost_total_of (totalOf b rm em qm { scnBucketGap with area_m2 := 1000 }) 1000) :=
  C6_amended scnBucketGap 500 1000 _ _ (by decide) (by decide) (by decide)
    (compute_simulation_eq _ 420 0.95 1.00 0.95 rfl rfl rfl rfl)
    (compute_simulation_eq _ 420 0.95 1.00 0.95 rfl rfl rfl rfl)

/-- C9: the returned material quantities are the 1-decimal roundings of
the area products, and the returned CO2 figure is the carbon formula
applied to those already-rounded returned quantities, rounded again to
1 decimal. -/
theorem C9_co2_from_rounded (scn : Scenario) (est : Estimate)
    (h : compute_simulation scn = some est) :
    est.steel_t = (if scn.structural_system = "Steel"
        then roundTo ((scn.area_m2 : ℚ) * 0.02) 1
        else roundTo ((scn.area_m2 : ℚ) * 0.008) 1) ∧
    est.concrete_m3 = (if scn.structural_system = "Steel"
        then roundTo ((scn.area_m2 : ℚ) * 0.05) 1
        else roundTo ((scn.area_m2 : ℚ) * 0.12) 1) ∧
    est.co2_tons = (if scn.structural_system = "Steel"
        then roundTo (est.steel_t * 1.8 + est.concrete_m3 * 0.1) 1
        else roundTo (est.steel_t * 1.4 + est.concrete_m3 * 0.22) 1) := by
  obtain ⟨b, rm, em, qm, -, -, -, -, hest⟩ := compute_simulation_some_elim h
  subst hest
  exact ⟨computeBody_steel_t b rm em qm scn, computeBody_concrete_m3 b rm em qm scn,
    computeBody_co2_tons b rm em qm scn⟩

/-- Witness for C9 at the spec's first concrete scenario. -/
theorem C9_co2_from_rounded_witness :
    (computeBody 420 0.95 1.00 0.95 scnSpecCheck1).steel_t =
      (if scnSpecCheck1.structural_system = "Steel"
        then roundTo ((scnSpecCheck1.area_m2 : ℚ) * 0.02) 1
        else roundTo ((scnSpecCheck1.area_m2 : ℚ) * 0.008) 1) ∧
    (computeBody 420 0.95 1.00 0.95 scnSpecCheck1).concrete_m3 =
      (if scnSpecCheck1.structural_system = "Steel"
        then roundTo ((scnSpecCheck1.area_m2 : ℚ) * 0.05) 1
        else roundTo ((scnSpecCheck1.area_m2 : ℚ) * 0.12) 1) ∧
    (computeBody 420 0.95 1.00 0.95 scnSpecCheck1).co2_tons =
      (if scnSpecCheck1.structural_system = "Steel"
        then roundTo ((computeBody 420 0.95 1.00 0.95 scnSpecCheck1).steel_t * 1.8 +
          (computeBody 420 0.95 1.00 0.95 scnSpecCheck1).concrete_m3 * 0.1) 1
        else roundTo ((computeBody 420 0.95 1.00 0.95 scnSpecCheck1).steel_t * 1.4 +
          (computeBody 420 0.95 1.00 0.95 scnSpecCheck1).concrete_m3 * 0.22) 1) :=
  C9_co2_from_rounded scnSpecCheck1 _
    (compute_simulation_eq _ 420 0.95 1.00 0.95 rfl rfl rfl rfl)
